import Mathlib

/-!
Shallow embedding of the dfhack `blueprint` plugin (`plugins/blueprint.cpp`).

The plugin walks a rectangular volume of the game map, classifies every tile
(and the building occupying it) into a quickfort token, accumulates the tokens
in a sparse volume keyed by (layer, row, column) offsets, and serializes the
volume in either the "pretty" (dense) or the "minimal" layout.

External collaborators (the df world query `Maps::getTileType`,
`Buildings::findAtTile`, the Lua options/filename resolvers, and the actual
file system) are modelled as explicit function parameters.  Machine integers
(`int16_t`/`int32_t`) are modelled as `Int`; no arithmetic in the translated
code can overflow 32 bits for inputs the plugin accepts, so no modular
reduction is needed.
-/

/-- `df::coord`: integer tile position. -/
structure Coord where
  x : Int
  y : Int
  z : Int
deriving DecidableEq

/-- `df::tiletype_shape`: the terrain shape enumeration (external df data). -/
inductive tiletype_shape
  | NONE | EMPTY | FLOOR | BOULDER | PEBBLES | WALL | FORTIFICATION
  | STAIR_UP | STAIR_DOWN | STAIR_UPDOWN | RAMP | RAMP_TOP
  | BROOK_BED | BROOK_TOP | TREE | SAPLING | SHRUB | ENDLESS_PIT
  | BRANCH | TRUNK_BRANCH | TWIG
deriving DecidableEq

/-- `df::building_type`: the building-kind discriminant returned by
`building::getType()`.  All values named in `get_build_keys` plus `Stockpile`
and a few other real df values that reach the `default:` branch. -/
inductive building_type
  | Armorstand | Bed | Chair | Door | Floodgate | Cabinet | Box | FarmPlot
  | Weaponrack | Statue | Table | RoadPaved | RoadDirt | Bridge | Well
  | SiegeEngine | Workshop | Furnace | WindowGlass | WindowGem | Construction
  | Shop | AnimalTrap | Chain | Cage | TradeDepot | Trap | ScrewPump
  | WaterWheel | Windmill | GearAssembly | AxleHorizontal | AxleVertical
  | Rollers | Support | ArcheryTarget | TractionBench | Hatch | Slab
  | NestBox | Hive | GrateWall | GrateFloor | BarsVertical | BarsFloor
  | Stockpile | Civzone | Wagon | Coffin | Instrument
deriving DecidableEq

/-- `df::building_bridgest::T_direction`. -/
inductive bridge_direction
  | Retracting | Left | Right | Up | Down
deriving DecidableEq

/-- `df::siegeengine_type`. -/
inductive siegeengine_type
  | Catapult | Ballista
deriving DecidableEq

/-- `df::workshop_type`. -/
inductive workshop_type
  | Carpenters | Farmers | Masons | Craftsdwarfs | Jewelers | MetalsmithsForge
  | MagmaForge | Bowyers | Mechanics | Siege | Butchers | Leatherworks
  | Tanners | Clothiers | Fishery | Still | Loom | Quern | Kennels | Kitchen
  | Ashery | Dyers | Millstone | Custom | Tool
deriving DecidableEq

/-- `df::furnace_type`. -/
inductive furnace_type
  | WoodFurnace | Smelter | GlassFurnace | Kiln | MagmaSmelter
  | MagmaGlassFurnace | MagmaKiln | Custom
deriving DecidableEq

/-- `df::construction_type`. -/
inductive construction_type
  | NONE | Fortification | Wall | Floor | UpStair | DownStair | UpDownStair
  | Ramp
  | TrackN | TrackS | TrackE | TrackW | TrackNS | TrackNE | TrackNW
  | TrackSE | TrackSW | TrackEW | TrackNSE | TrackNSW | TrackNEW | TrackSEW
  | TrackNSEW
  | TrackRampN | TrackRampS | TrackRampE | TrackRampW | TrackRampNS
  | TrackRampNE | TrackRampNW | TrackRampSE | TrackRampSW | TrackRampEW
  | TrackRampNSE | TrackRampNSW | TrackRampNEW | TrackRampSEW | TrackRampNSEW
deriving DecidableEq

/-- `df::trap_type`. -/
inductive trap_type
  | Lever | PressurePlate | CageTrap | StoneFallTrap | WeaponTrap | TrackStop
deriving DecidableEq

/-- `df::screw_pump_direction` (also used by `building_rollersst`). -/
inductive screw_pump_direction
  | FromNorth | FromEast | FromSouth | FromWest
deriving DecidableEq

/-- The dynamic (most-derived) type of a `df::building`, carrying the
subclass fields that `blueprint.cpp` reads after a `virtual_cast`.  A
`virtual_cast<T>` in the source succeeds exactly when the building's dynamic
type is the corresponding constructor here; `plain` stands for every other
df building subclass (on which all the casts in this file fail). -/
inductive building_sub
  | plain
  | bridgest (direction : bridge_direction)
  | siegeenginest (tpe : siegeengine_type)
  | workshopst (tpe : workshop_type)
  | furnacest (tpe : furnace_type)
  | constructionst (tpe : construction_type)
  | trapst (tt : trap_type) (use_dump : Bool)
      (dump_x_shift dump_y_shift : Int) (friction : Int)
  | screw_pumpst (direction : screw_pump_direction)
  | water_wheelst (is_vertical : Bool)
  | axle_horizontalst (is_vertical : Bool)
  | rollersst (direction : screw_pump_direction)
  | stockpilest (flags_whole : Nat)
deriving DecidableEq

/-- A `df::building*`: the base-class fields read by the plugin
(`x1/y1/x2/y2` the two opposite footprint corners, `centerx/centery` the df
computed center point, `is_room`) together with the `getType()` discriminant
and the dynamic subclass data. -/
structure Building where
  x1 : Int
  y1 : Int
  x2 : Int
  y2 : Int
  centerx : Int
  centery : Int
  getType : building_type
  sub : building_sub
  is_room : Bool
deriving DecidableEq

/-- `tile_context` from the source: per-tile transient state. -/
structure tile_context where
  pretty : Bool
  b : Option Building
deriving DecidableEq

/-- `blueprint_options`: the run parameters (already validated by the Lua
option parser: width and height positive, depth non-zero). -/
structure blueprint_options where
  format : String
  name : String
  width : Int
  height : Int
  depth : Int
  auto_phase : Bool
  dig : Bool
  build : Bool
  place : Bool
  query : Bool
deriving DecidableEq

/-- `get_tile_dig`: the excavation-phase classifier.  The external tile-type
lookup composed with `tileShape` is abstracted as `shapeAt`; the `tile_context`
argument is unnamed and unused exactly as in the source. -/
def get_tile_dig (shapeAt : Coord → tiletype_shape) (pos : Coord)
    (_ctx : tile_context) : Option String :=
  match shapeAt pos with
  | .EMPTY => some "h"
  | .RAMP_TOP => some "h"
  | .FLOOR => some "d"
  | .BOULDER => some "d"
  | .PEBBLES => some "d"
  | .BROOK_TOP => some "d"
  | .FORTIFICATION => some "F"
  | .STAIR_UP => some "u"
  | .STAIR_DOWN => some "j"
  | .STAIR_UPDOWN => some "i"
  | .RAMP => some "r"
  | _ => none

/-- `get_building_size`: footprint size from the two opposite corners. -/
def get_building_size (b : Building) : Int × Int :=
  (b.x2 - b.x1 + 1, b.y2 - b.y1 + 1)

/-- `if_pretty`: the continuation placeholder is the backtick marker in the
pretty (dense) layout and the empty string in the minimal layout. -/
def if_pretty (ctx : tile_context) (c : String) : String :=
  if ctx.pretty then c else ""

/-- `do_block_building`: non-anchor tiles of a multi-tile building get the
continuation placeholder; the anchor tile gets the real token `s` and (when
the caller passed an `add_size` out-parameter, modelled by `want_size`)
requests the footprint-size suffix. -/
def do_block_building (ctx : tile_context) (s : String) (at_target_pos : Bool)
    (want_size : Bool) : String × Bool :=
  if !at_target_pos then (if_pretty ctx "`", false)
  else (s, want_size)

/-- `get_bridge_str`. -/
def get_bridge_str (b : Building) : String :=
  match b.sub with
  | .bridgest dir =>
    match dir with
    | .Retracting => "gs"
    | .Left => "ga"
    | .Right => "gd"
    | .Up => "gw"
    | .Down => "gx"
  | _ => "g"

/-- `get_siege_str`. -/
def get_siege_str (b : Building) : String :=
  match b.sub with
  | .siegeenginest tpe => if tpe = .Catapult then "ic" else "ib"
  | _ => "ic"

/-- `get_workshop_str`. -/
def get_workshop_str (b : Building) : String :=
  match b.sub with
  | .workshopst tpe =>
    match tpe with
    | .Leatherworks => "we"
    | .Quern => "wq"
    | .Millstone => "wM"
    | .Loom => "wo"
    | .Clothiers => "wk"
    | .Bowyers => "wb"
    | .Carpenters => "wc"
    | .MetalsmithsForge => "wf"
    | .MagmaForge => "wv"
    | .Jewelers => "wj"
    | .Masons => "wm"
    | .Butchers => "wu"
    | .Tanners => "wn"
    | .Craftsdwarfs => "wr"
    | .Siege => "ws"
    | .Mechanics => "wt"
    | .Still => "wl"
    | .Farmers => "ww"
    | .Kitchen => "wz"
    | .Fishery => "wh"
    | .Ashery => "wy"
    | .Dyers => "wd"
    | .Kennels => "k"
    | .Custom => "~"
    | .Tool => "~"
  | _ => "~"

/-- `get_furnace_str`. -/
def get_furnace_str (b : Building) : String :=
  match b.sub with
  | .furnacest tpe =>
    match tpe with
    | .WoodFurnace => "ew"
    | .Smelter => "es"
    | .GlassFurnace => "eg"
    | .Kiln => "ek"
    | .MagmaSmelter => "el"
    | .MagmaGlassFurnace => "ea"
    | .MagmaKiln => "en"
    | .Custom => "~"
  | _ => "~"

/-- `get_construction_str`. -/
def get_construction_str (b : Building) : String :=
  match b.sub with
  | .constructionst tpe =>
    match tpe with
    | .Fortification => "CF"
    | .Wall => "CW"
    | .Floor => "Cf"
    | .UpStair => "Cu"
    | .DownStair => "Cj"
    | .UpDownStair => "Cx"
    | .Ramp => "Cr"
    | .TrackN => "trackN"
    | .TrackS => "trackS"
    | .TrackE => "trackE"
    | .TrackW => "trackW"
    | .TrackNS => "trackNS"
    | .TrackNE => "trackNE"
    | .TrackNW => "trackNW"
    | .TrackSE => "trackSE"
    | .TrackSW => "trackSW"
    | .TrackEW => "trackEW"
    | .TrackNSE => "trackNSE"
    | .TrackNSW => "trackNSW"
    | .TrackNEW => "trackNEW"
    | .TrackSEW => "trackSEW"
    | .TrackNSEW => "trackNSEW"
    | .TrackRampN => "trackrampN"
    | .TrackRampS => "trackrampS"
    | .TrackRampE => "trackrampE"
    | .TrackRampW => "trackrampW"
    | .TrackRampNS => "trackrampNS"
    | .TrackRampNE => "trackrampNE"
    | .TrackRampNW => "trackrampNW"
    | .TrackRampSE => "trackrampSE"
    | .TrackRampSW => "trackrampSW"
    | .TrackRampEW => "trackrampEW"
    | .TrackRampNSE => "trackrampNSE"
    | .TrackRampNSW => "trackrampNSW"
    | .TrackRampNEW => "trackrampNEW"
    | .TrackRampSEW => "trackrampSEW"
    | .TrackRampNSEW => "trackrampNSEW"
    | .NONE => "~"
  | _ => "~"

/-- The friction-tier suffix of a track stop token.  In the source this is a
`switch (trap->friction)` whose cases `10`, `50`, `500`, `10000` each append
one `"a"` and intentionally fall through to the next case, so a matched tier
also appends the markers of every tier below it. -/
def friction_markers (friction : Int) : String :=
  (if friction = 10 then "a" else "")
  ++ (if friction = 10 ∨ friction = 50 then "a" else "")
  ++ (if friction = 10 ∨ friction = 50 ∨ friction = 500 then "a" else "")
  ++ (if friction = 10 ∨ friction = 50 ∨ friction = 500 ∨ friction = 10000
      then "a" else "")

/-- `get_trap_str`.  The token interning `cache` call is the identity on the
string value and is therefore dropped. -/
def get_trap_str (b : Building) : String :=
  match b.sub with
  | .trapst tt use_dump dump_x_shift dump_y_shift friction =>
    match tt with
    | .StoneFallTrap => "Ts"
    | .WeaponTrap => "Tw"
    | .Lever => "Tl"
    | .PressurePlate => "Tp"
    | .CageTrap => "Tc"
    | .TrackStop =>
        "CS"
        ++ (if use_dump then
              (if dump_x_shift = 0 then
                 "d" ++ (if 0 < dump_y_shift then "d" else "")
               else
                 "ddd" ++ (if dump_x_shift < 0 then "d" else ""))
            else "")
        ++ friction_markers friction
  | _ => "~"

/-- `get_screw_pump_str`. -/
def get_screw_pump_str (b : Building) : String :=
  match b.sub with
  | .screw_pumpst dir =>
    match dir with
    | .FromNorth => "Msu"
    | .FromEast => "Msk"
    | .FromSouth => "Msm"
    | .FromWest => "Msh"
  | _ => "~"

/-- `get_water_wheel_str`. -/
def get_water_wheel_str (b : Building) : String :=
  match b.sub with
  | .water_wheelst v => if v then "Mw" else "Mws"
  | _ => "~"

/-- `get_axle_str`. -/
def get_axle_str (b : Building) : String :=
  match b.sub with
  | .axle_horizontalst v => if v then "Mhs" else "Mh"
  | _ => "~"

/-- `get_roller_str`. -/
def get_roller_str (b : Building) : String :=
  match b.sub with
  | .rollersst dir =>
    match dir with
    | .FromNorth => "Mr"
    | .FromEast => "Mrs"
    | .FromSouth => "Mrss"
    | .FromWest => "Mrsss"
  | _ => "~"

/-- `get_build_keys`: construction-phase dispatch on the building kind.  The
`add_size` out-parameter is modelled as the second component of the result
(initialized `false` by the caller `get_tile_build`). -/
def get_build_keys (pos : Coord) (ctx : tile_context) (b : Building) :
    String × Bool :=
  let at_nw_corner : Bool := pos.x == b.x1 && pos.y == b.y1
  let at_se_corner : Bool := pos.x == b.x2 && pos.y == b.y2
  let at_center : Bool := pos.x == b.centerx && pos.y == b.centery
  match b.getType with
  | .Armorstand => ("a", false)
  | .Bed => ("b", false)
  | .Chair => ("c", false)
  | .Door => ("d", false)
  | .Floodgate => ("x", false)
  | .Cabinet => ("f", false)
  | .Box => ("h", false)
  | .FarmPlot => do_block_building ctx "p" at_nw_corner true
  | .Weaponrack => ("r", false)
  | .Statue => ("s", false)
  | .Table => ("t", false)
  | .RoadPaved => do_block_building ctx "o" at_nw_corner true
  | .RoadDirt => do_block_building ctx "O" at_nw_corner true
  | .Bridge => do_block_building ctx (get_bridge_str b) at_nw_corner true
  | .Well => ("l", false)
  | .SiegeEngine => do_block_building ctx (get_siege_str b) at_center false
  | .Workshop => do_block_building ctx (get_workshop_str b) at_center false
  | .Furnace => do_block_building ctx (get_furnace_str b) at_center false
  | .WindowGlass => ("y", false)
  | .WindowGem => ("Y", false)
  | .Construction => (get_construction_str b, false)
  | .Shop => do_block_building ctx "z" at_center false
  | .AnimalTrap => ("m", false)
  | .Chain => ("v", false)
  | .Cage => ("j", false)
  | .TradeDepot => do_block_building ctx "D" at_center false
  | .Trap => (get_trap_str b, false)
  | .ScrewPump => do_block_building ctx (get_screw_pump_str b) at_se_corner false
  | .WaterWheel => do_block_building ctx (get_water_wheel_str b) at_center false
  | .Windmill => do_block_building ctx "Mm" at_center false
  | .GearAssembly => ("Mg", false)
  | .AxleHorizontal => do_block_building ctx (get_axle_str b) at_nw_corner true
  | .AxleVertical => ("Mv", false)
  | .Rollers => do_block_building ctx (get_roller_str b) at_nw_corner true
  | .Support => ("S", false)
  | .ArcheryTarget => ("A", false)
  | .TractionBench => ("R", false)
  | .Hatch => ("H", false)
  | .Slab => ("~", false)
  | .NestBox => ("N", false)
  | .Hive => ("~", false)
  | .GrateWall => ("W", false)
  | .GrateFloor => ("G", false)
  | .BarsVertical => ("B", false)
  | .BarsFloor => ("~", false)
  | _ => ("~", false)

/-- `add_expansion_syntax` in the source (renamed): `"~"` for a null `keys`,
otherwise the keys followed by the footprint dimensions in the `(w x h)`
expansion syntax. -/
def add_expansion_str (b : Building) (keys : Option String) : String :=
  match keys with
  | none => "~"
  | some k =>
      k ++ "(" ++ toString (get_building_size b).1 ++ "x"
        ++ toString (get_building_size b).2 ++ ")"

/-- `get_tile_build`: the construction-phase classifier. -/
def get_tile_build (pos : Coord) (ctx : tile_context) : Option String :=
  match ctx.b with
  | none => none
  | some b =>
    if b.getType = .Stockpile then none
    else
      let r := get_build_keys pos ctx b
      if r.2 = false then some r.1
      else some (add_expansion_str b (some r.1))

/-- Single-bit masks of `df::stockpile_group_set`, one bit per category in
declaration order (external df data; the exact bit values are irrelevant to
the plugin, which only compares the whole bitmask against single masks). -/
def mask_animals : Nat := 1
def mask_food : Nat := 2
def mask_furniture : Nat := 4
def mask_corpses : Nat := 8
def mask_refuse : Nat := 16
def mask_wood : Nat := 32
def mask_stone : Nat := 64
def mask_gems : Nat := 128
def mask_bars_blocks : Nat := 256
def mask_cloth : Nat := 512
def mask_leather : Nat := 1024
def mask_ammo : Nat := 2048
def mask_coins : Nat := 4096
def mask_finished_goods : Nat := 8192
def mask_weapons : Nat := 16384
def mask_armor : Nat := 32768

/-- `get_place_keys`: one letter per single-category stockpile bitmask;
`none` both when the building is not a stockpile (failed cast) and for the
unhandled multi-category `default:` branch. -/
def get_place_keys (ctx : tile_context) : Option String :=
  match ctx.b with
  | some b =>
    match b.sub with
    | .stockpilest flags =>
      if flags = mask_animals then some "a"
      else if flags = mask_food then some "f"
      else if flags = mask_furniture then some "u"
      else if flags = mask_corpses then some "y"
      else if flags = mask_refuse then some "r"
      else if flags = mask_wood then some "w"
      else if flags = mask_stone then some "s"
      else if flags = mask_gems then some "e"
      else if flags = mask_bars_blocks then some "b"
      else if flags = mask_cloth then some "h"
      else if flags = mask_leather then some "l"
      else if flags = mask_ammo then some "z"
      else if flags = mask_coins then some "n"
      else if flags = mask_finished_goods then some "g"
      else if flags = mask_weapons then some "p"
      else if flags = mask_armor then some "d"
      else none
    | _ => none
  | none => none

/-- `get_tile_place`: the designation-phase (stockpile) classifier. -/
def get_tile_place (pos : Coord) (ctx : tile_context) : Option String :=
  match ctx.b with
  | none => none
  | some b =>
    if b.getType ≠ .Stockpile then none
    else if b.x1 ≠ pos.x ∨ b.y1 ≠ pos.y then some (if_pretty ctx "`")
    else some (add_expansion_str b (get_place_keys ctx))

/-- `get_tile_query`: the room-flag classifier. -/
def get_tile_query (_pos : Coord) (ctx : tile_context) : Option String :=
  match ctx.b with
  | none => none
  | some b => if b.is_room then some "r+" else none

/-! ## Sparse volume accumulator

`bp_row`/`bp_area`/`bp_volume` are `std::map`s in the source; we model each
level as an association list sorted strictly ascending by key, which is the
iteration order `std::map` guarantees.  `rowSet`/`areaSet`/`volSet` model the
`emplace` (keep an existing entry) / `operator[]=` (insert or overwrite)
combination used in `do_transform`. -/

/-- One row of the sparse volume: column offset → token. -/
abbrev bp_row := List (Int × String)

/-- One layer: row offset → row. -/
abbrev bp_area := List (Int × bp_row)

/-- The sparse volume: layer offset → layer. -/
abbrev bp_volume := List (Int × bp_area)

/-- Insert-or-overwrite into a sorted row (`row[x] = tile_str`). -/
def rowSet : bp_row → Int → String → bp_row
  | [], x, s => [(x, s)]
  | (k, v) :: rest, x, s =>
    if x < k then (x, s) :: (k, v) :: rest
    else if x = k then (x, s) :: rest
    else (k, v) :: rowSet rest x s

/-- `area.emplace(y, NEW_ROW)` followed by setting column `x` in that row. -/
def areaSet : bp_area → Int → Int → String → bp_area
  | [], y, x, s => [(y, rowSet [] x s)]
  | (k, r) :: rest, y, x, s =>
    if y < k then (y, rowSet [] x s) :: (k, r) :: rest
    else if y = k then (k, rowSet r x s) :: rest
    else (k, r) :: areaSet rest y x s

/-- `mapdata.emplace(z, NEW_AREA)` followed by the row/column insertion. -/
def volSet : bp_volume → Int → Int → Int → String → bp_volume
  | [], z, y, x, s => [(z, areaSet [] y x s)]
  | (k, a) :: rest, z, y, x, s =>
    if z < k then (z, areaSet [] y x s) :: (k, a) :: rest
    else if z = k then (k, areaSet a y x s) :: rest
    else (k, a) :: volSet rest z y x s

/-- Nested lookup (`count`/`at` on each level). -/
def volGet (v : bp_volume) (z y x : Int) : Option String :=
  match List.lookup z v with
  | none => none
  | some a =>
    match List.lookup y a with
    | none => none
    | some r => List.lookup x r

/-- The keys of an association-list level are strictly ascending (the
`std::map` iteration-order invariant). -/
def sortedKeys {α : Type} (l : List (Int × α)) : Prop :=
  (l.map Prod.fst).Pairwise (· < ·)

/-! ## Serializers -/

/-- String repetition helper for the gap-filling loops of `write_minimal`. -/
def repStr (n : Nat) (s : String) : String :=
  String.join (List.replicate n s)

/-- `write_minimal`: the comma/newline-compressed layout.  Output is modelled
as the full string written to the file; each `std::endl` is a `"\n"`.  The
`zprev`/`yprev`/`xprev` gap counters of the source are the fold state. -/
def write_minimal (opts : blueprint_options) (mapdata : bp_volume) : String :=
  if mapdata = [] then ""
  else
    let z_key := if 0 < opts.depth then "#<" else "#>"
    (mapdata.foldl (fun (acc : String × Int) area =>
      let s1 := acc.1 ++ repStr (area.1 - acc.2).toNat (z_key ++ "\n")
      let inner := area.2.foldl (fun (acc2 : String × Int) row =>
        let s2 := acc2.1 ++ repStr (row.1 - acc2.2).toNat "\n"
        let line := (row.2.foldl (fun (acc3 : String × Int) tile =>
          (acc3.1 ++ repStr (tile.1 - acc3.2).toNat "," ++ tile.2, tile.1))
          (s2, 0)).1
        (line, row.1)) (s1, 0)
      (inner.1 ++ "\n", area.1)) ("", 0)).1

/-- One cell of the dense layout: the recorded token, or a blank for a
position with no recorded token. -/
def prettyCell (v : bp_volume) (z y x : Int) : String :=
  match volGet v z y x with
  | some t => t
  | none => " "

/-- One row line of the dense layout: `width` cells, each followed by a
comma, terminated by `#`. -/
def prettyRow (opts : blueprint_options) (v : bp_volume) (z y : Nat) : String :=
  String.join ((List.range opts.width.toNat).map (fun (x : Nat) =>
    prettyCell v (z : Int) (y : Int) (x : Int) ++ ",")) ++ "#"

/-- `write_pretty`: the dense layout, modelled as the list of output lines
(each `std::endl` ends a line). -/
def write_pretty (opts : blueprint_options) (v : bp_volume) : List String :=
  let z_key := if 0 < opts.depth then "#<" else "#>"
  let absdepth := opts.depth.natAbs
  (List.range absdepth).flatMap (fun z =>
    ((List.range opts.height.toNat).map (fun y => prettyRow opts v z y))
    ++ (if z < absdepth - 1 then [z_key] else []))

/-- `get_modeline`: the phase header line. -/
def get_modeline (phase : String) : String :=
  "#" ++ phase ++ " label(" ++ phase ++ ")"

/-! ## Scan orchestrator

The triple loop of `do_transform` that walks the requested volume and records
classifier results.  The classifier (together with the world query baked into
it) is a parameter `get_tile`. -/

/-- The `for (v = s; v < e; v++)` iteration sequence (x and y loops). -/
def loop_range (s e : Int) : List Int :=
  (List.range (e - s).toNat).map (fun (i : Nat) => s + (i : Int))

/-- The z loop: `z_inc = start.z < end.z ? 1 : -1`,
`for (z = start.z; z != end.z; z += z_inc)`. -/
def z_steps (startz endz : Int) : List Int :=
  if startz < endz then
    (List.range (endz - startz).toNat).map (fun (i : Nat) => startz + (i : Int))
  else
    (List.range (startz - endz).toNat).map (fun (i : Nat) => startz - (i : Int))

/-- The per-tile body: record the token (if any) at the normalized offsets
`(abs(z - start.z), y - start.y, x - start.x)`; a tile with no token leaves
the volume untouched. -/
def scan_step (start : Coord) (get_tile : Coord → Option String)
    (v : bp_volume) (pos : Coord) : bp_volume :=
  match get_tile pos with
  | none => v
  | some s =>
      volSet v ((pos.z - start.z).natAbs : Int) (pos.y - start.y)
        (pos.x - start.x) s

/-- The scan loop of `do_transform` for one processor, starting from the
fresh (empty) `mapdata` of that processor. -/
def run_scan (start endc : Coord) (get_tile : Coord → Option String) :
    bp_volume :=
  (z_steps start.z endc.z).foldl (fun v z =>
    (loop_range start.y endc.y).foldl (fun v y =>
      (loop_range start.x endc.x).foldl (fun v x =>
        scan_step start get_tile v ⟨x, y, z⟩) v) v) []

/-! ## File orchestration

The phase-selection, directory-creation and file-writing control flow of
`do_transform`/`write_blueprint`, with the Lua filename resolver abstracted
as `getFilename` and the file system reduced to the list of files opened.
`write_blueprint` opens `fname` with `new ofstream` the first time a phase
resolves to it; `do_transform` closes (and deletes) every stream only in the
loop that runs after all phases succeeded, and returns early otherwise. -/

/-- The ordered list of requested phases. -/
def phase_list (opts : blueprint_options) : List String :=
  (if opts.auto_phase || opts.dig then ["dig"] else [])
  ++ (if opts.auto_phase || opts.build then ["build"] else [])
  ++ (if opts.auto_phase || opts.place then ["place"] else [])
  ++ (if opts.auto_phase || opts.query then ["query"] else [])

/-- `write_blueprint`: resolve the phase's filename (`none` models a failed
Lua call) and open the file if this run has not opened it yet.  Returns the
updated set of open files, or `none` on failure. -/
def write_blueprint (getFilename : String → Option String)
    (output_files : List String) (phase : String) : Option (List String) :=
  match getFilename phase with
  | none => none
  | some fname =>
      some (if fname ∈ output_files then output_files
            else output_files ++ [fname])

/-- The write loop of `do_transform`: feed each processor's phase to
`write_blueprint`, returning early with the files opened so far on failure. -/
def write_loop (getFilename : String → Option String) :
    List String → List String → Bool × List String
  | output_files, [] => (true, output_files)
  | output_files, p :: ps =>
      match write_blueprint getFilename output_files p with
      | none => (false, output_files)
      | some output_files2 => write_loop getFilename output_files2 ps

/-- Observable file-system outcome of one `do_transform` run. -/
structure RunOutcome where
  ok : Bool
  dirAttempted : Bool
  opened : List String
  openAtReturn : List String
deriving DecidableEq

/-- The file-handling skeleton of `do_transform`: the empty-phase-list check,
the `create_output_dir` call (success abstracted as `mkdirOk`), the
`write_blueprint` loop, and the final close loop — which is only reached when
every `write_blueprint` call succeeded; on the early `return false` the
streams opened so far are neither closed nor deleted. -/
def do_transform_files (opts : blueprint_options)
    (getFilename : String → Option String) (mkdirOk : Bool) : RunOutcome :=
  let procs := phase_list opts
  if procs.isEmpty then
    { ok := false, dirAttempted := false, opened := [], openAtReturn := [] }
  else if !mkdirOk then
    { ok := false, dirAttempted := true, opened := [], openAtReturn := [] }
  else
    let r := write_loop getFilename [] procs
    if r.1 then
      { ok := true, dirAttempted := true, opened := r.2, openAtReturn := [] }
    else
      { ok := false, dirAttempted := true, opened := r.2, openAtReturn := r.2 }

/-! ## Derived definitions used to state the claims -/

/-- The kinds routed through `do_block_building` (multi-tile / anchored
kinds). -/
def isBlockKind : building_type → Bool
  | .FarmPlot | .RoadPaved | .RoadDirt | .Bridge | .SiegeEngine | .Workshop
  | .Furnace | .Shop | .TradeDepot | .ScrewPump | .WaterWheel | .Windmill
  | .AxleHorizontal | .Rollers => true
  | _ => false

/-- The kinds whose anchor token carries the `(w x h)` expansion suffix
(those called with the `add_size` out-parameter). -/
def hasSizeKind : building_type → Bool
  | .FarmPlot | .RoadPaved | .RoadDirt | .Bridge | .AxleHorizontal
  | .Rollers => true
  | _ => false

/-- The x coordinate of a kind's designated anchor tile: north-west corner,
building center, or south-east corner, following the `at_nw_corner` /
`at_center` / `at_se_corner` flag each kind passes to `do_block_building`. -/
def anchor_x (b : Building) : Int :=
  match b.getType with
  | .FarmPlot | .RoadPaved | .RoadDirt | .Bridge | .AxleHorizontal
  | .Rollers => b.x1
  | .ScrewPump => b.x2
  | _ => b.centerx

/-- The y coordinate of the designated anchor tile. -/
def anchor_y (b : Building) : Int :=
  match b.getType with
  | .FarmPlot | .RoadPaved | .RoadDirt | .Bridge | .AxleHorizontal
  | .Rollers => b.y1
  | .ScrewPump => b.y2
  | _ => b.centery

/-- The kind-specific base token a block building's anchor tile receives
(before the optional expansion suffix). -/
def block_base (b : Building) : String :=
  match b.getType with
  | .FarmPlot => "p"
  | .RoadPaved => "o"
  | .RoadDirt => "O"
  | .Bridge => get_bridge_str b
  | .SiegeEngine => get_siege_str b
  | .Workshop => get_workshop_str b
  | .Furnace => get_furnace_str b
  | .Shop => "z"
  | .TradeDepot => "D"
  | .ScrewPump => get_screw_pump_str b
  | .WaterWheel => get_water_wheel_str b
  | .Windmill => "Mm"
  | .AxleHorizontal => get_axle_str b
  | .Rollers => get_roller_str b
  | _ => "~"

/-- The full descriptor token the anchor tile of a block building emits:
the base token, with the `(w x h)` suffix for the kinds that encode their
footprint size. -/
def full_token (b : Building) : String :=
  if hasSizeKind b.getType then add_expansion_str b (some (block_base b))
  else block_base b

/-- The fixed shape → token table of the excavation phase (the body of
`get_tile_dig` as a function of the shape alone). -/
def dig_token (s : tiletype_shape) : Option String :=
  match s with
  | .EMPTY => some "h"
  | .RAMP_TOP => some "h"
  | .FLOOR => some "d"
  | .BOULDER => some "d"
  | .PEBBLES => some "d"
  | .BROOK_TOP => some "d"
  | .FORTIFICATION => some "F"
  | .STAIR_UP => some "u"
  | .STAIR_DOWN => some "j"
  | .STAIR_UPDOWN => some "i"
  | .RAMP => some "r"
  | _ => none

/-- Number of friction markers in a string (occurrences of the marker
character). -/
def a_count (s : String) : Nat := s.toList.count 'a'

/-- The four friction values matched by the fall-through switch, in
ascending order. -/
def friction_ladder : List Int := [10, 50, 500, 10000]

/-! ## Concrete inputs used by counterexamples and witnesses -/

/-- A track stop with no dump mechanism and friction 500. -/
def track_stop_500 : Building :=
  { x1 := 0, y1 := 0, x2 := 0, y2 := 0, centerx := 0, centery := 0,
    getType := .Trap, sub := .trapst .TrackStop false 0 0 500,
    is_room := false }

/-- A track stop with no dump mechanism and friction 10000. -/
def track_stop_10000 : Building :=
  { x1 := 0, y1 := 0, x2 := 0, y2 := 0, centerx := 0, centery := 0,
    getType := .Trap, sub := .trapst .TrackStop false 0 0 10000,
    is_room := false }

/-- A track stop with a dump mechanism (x shift 0, y shift 1) and
friction 500: the C4 scenario. -/
def track_stop_dump_500 : Building :=
  { x1 := 0, y1 := 0, x2 := 0, y2 := 0, centerx := 0, centery := 0,
    getType := .Trap, sub := .trapst .TrackStop true 0 1 500,
    is_room := false }

/-- A 2×1 farm plot at the origin (anchor = north-west corner (0,0)). -/
def farm_2x1 : Building :=
  { x1 := 0, y1 := 0, x2 := 1, y2 := 0, centerx := 0, centery := 0,
    getType := .FarmPlot, sub := .plain, is_room := false }

/-- The construction-phase classifier over a world whose only building is
`farm_2x1`, with the given layout flag (the per-tile context built by the
scan loop of `do_transform`). -/
def build_tile_farm (pretty : Bool) : Coord → Option String := fun pos =>
  get_tile_build pos { pretty := pretty, b := some farm_2x1 }

/-- Run parameters for a 2×1×1 scan in the dense (pretty) layout. -/
def opts_2x1_pretty : blueprint_options :=
  { format := "csv", name := "c2", width := 2, height := 1, depth := 1,
    auto_phase := false, dig := false, build := true, place := false,
    query := false }

/-- Run parameters for a 2×1×1 scan in the minimal layout. -/
def opts_2x1_minimal : blueprint_options :=
  { opts_2x1_pretty with format := "minimal" }

/-- Run parameters for the C7 scenario: a 1×1 column scanned upward from
z = 10 with depth −5 (hence end.z = 5). -/
def opts_c7 : blueprint_options :=
  { format := "minimal", name := "c7", width := 1, height := 1, depth := -5,
    auto_phase := false, dig := true, build := false, place := false,
    query := false }

/-- The C7 world: a token `"A"` at world z = 9 and a token `"B"` at world
z = 7 (any x, y — the scan only visits x = y = 0). -/
def world_c7 : Coord → Option String := fun pos =>
  if pos.z = 9 then some "A" else if pos.z = 7 then some "B" else none

/-- Run parameters requesting only the dig and build phases (C8 scenario). -/
def opts_c8 : blueprint_options :=
  { format := "minimal", name := "c8", width := 1, height := 1, depth := 1,
    auto_phase := false, dig := true, build := true, place := false,
    query := false }

/-- A filename resolver that succeeds for the dig phase and fails for the
build phase (modelling a failed `get_filename` Lua call). -/
def getFilename_c8 : String → Option String := fun phase =>
  if phase = "dig" then some "blueprints/c8-dig.csv" else none

/-- Run parameters with no phase selected and auto-detection off. -/
def opts_no_phases : blueprint_options :=
  { format := "minimal", name := "c9", width := 1, height := 1, depth := 1,
    auto_phase := false, dig := false, build := false, place := false,
    query := false }

/-- A track stop with no dump mechanism and parametric friction. -/
def track_stop_plain (fr : Int) : Building :=
  { x1 := 0, y1 := 0, x2 := 0, y2 := 0, centerx := 0, centery := 0,
    getType := .Trap, sub := .trapst .TrackStop false 0 0 fr,
    is_room := false }

/-! ## Helper lemmas -/

theorem cs_append_ne (s : String) : ("CS" ++ s) ≠ "" ∧ ("CS" ++ s) ≠ "`" := by
  constructor <;> intro h <;>
    (have hl := congrArg String.length h
     rw [String.length_append] at hl
     have h2 : "CS".length = 2 := rfl
     have h0 : "".length = 0 := rfl
     have h1 : "`".length = 1 := rfl
     omega)

theorem get_bridge_str_ne (b : Building) :
    get_bridge_str b ≠ "" ∧ get_bridge_str b ≠ "`" := by
  cases hs : b.sub <;> simp only [get_bridge_str, hs] <;> try decide
  rename_i dir
  cases dir <;> decide

theorem get_siege_str_ne (b : Building) :
    get_siege_str b ≠ "" ∧ get_siege_str b ≠ "`" := by
  cases hs : b.sub <;> simp only [get_siege_str, hs] <;> try decide
  rename_i tpe
  cases tpe <;> decide

theorem get_workshop_str_ne (b : Building) :
    get_workshop_str b ≠ "" ∧ get_workshop_str b ≠ "`" := by
  cases hs : b.sub <;> simp only [get_workshop_str, hs] <;> try decide
  rename_i tpe
  cases tpe <;> decide

theorem get_furnace_str_ne (b : Building) :
    get_furnace_str b ≠ "" ∧ get_furnace_str b ≠ "`" := by
  cases hs : b.sub <;> simp only [get_furnace_str, hs] <;> try decide
  rename_i tpe
  cases tpe <;> decide

theorem get_screw_pump_str_ne (b : Building) :
    get_screw_pump_str b ≠ "" ∧ get_screw_pump_str b ≠ "`" := by
  cases hs : b.sub <;> simp only [get_screw_pump_str, hs] <;> try decide
  rename_i dir
  cases dir <;> decide

theorem get_water_wheel_str_ne (b : Building) :
    get_water_wheel_str b ≠ "" ∧ get_water_wheel_str b ≠ "`" := by
  cases hs : b.sub <;> simp only [get_water_wheel_str, hs] <;> try decide
  rename_i v
  cases v <;> decide

theorem get_axle_str_ne (b : Building) :
    get_axle_str b ≠ "" ∧ get_axle_str b ≠ "`" := by
  cases hs : b.sub <;> simp only [get_axle_str, hs] <;> try decide
  rename_i v
  cases v <;> decide

theorem get_roller_str_ne (b : Building) :
    get_roller_str b ≠ "" ∧ get_roller_str b ≠ "`" := by
  cases hs : b.sub <;> simp only [get_roller_str, hs] <;> try decide
  rename_i dir
  cases dir <;> decide

theorem block_base_ne (b : Building) :
    block_base b ≠ "" ∧ block_base b ≠ "`" := by
  cases hbt : b.getType <;> simp only [block_base, hbt] <;> first
    | decide
    | exact get_bridge_str_ne b
    | exact get_siege_str_ne b
    | exact get_workshop_str_ne b
    | exact get_furnace_str_ne b
    | exact get_screw_pump_str_ne b
    | exact get_water_wheel_str_ne b
    | exact get_axle_str_ne b
    | exact get_roller_str_ne b

theorem add_expansion_ne (b : Building) (k : String) :
    add_expansion_str b (some k) ≠ "" ∧ add_expansion_str b (some k) ≠ "`" := by
  simp only [add_expansion_str]
  constructor <;> intro h <;>
    (have hl := congrArg String.length h
     simp only [String.length_append] at hl
     have h2 : "(".length = 1 := rfl
     have h3 : "x".length = 1 := rfl
     have h4 : ")".length = 1 := rfl
     have h0 : "".length = 0 := rfl
     have h1 : "`".length = 1 := rfl
     omega)

theorem full_token_ne (b : Building) :
    full_token b ≠ "" ∧ full_token b ≠ "`" := by
  unfold full_token
  split
  · exact add_expansion_ne b (block_base b)
  · exact block_base_ne b

theorem isBlockKind_ne_stockpile {t : building_type}
    (h : isBlockKind t = true) : t ≠ .Stockpile := by
  cases t <;> simp_all [isBlockKind]

theorem get_build_keys_block (pos : Coord) (ctx : tile_context) (b : Building)
    (h : isBlockKind b.getType = true) :
    get_build_keys pos ctx b =
      do_block_building ctx (block_base b)
        (pos.x == anchor_x b && pos.y == anchor_y b)
        (hasSizeKind b.getType) := by
  cases hbt : b.getType <;>
    simp_all [get_build_keys, block_base, anchor_x, anchor_y, hasSizeKind,
              isBlockKind]

theorem build_anchor (pos : Coord) (ctx : tile_context) (b : Building)
    (hb : ctx.b = some b) (hkind : isBlockKind b.getType = true)
    (hax : pos.x = anchor_x b) (hay : pos.y = anchor_y b) :
    get_tile_build pos ctx = some (full_token b) := by
  have hns : b.getType ≠ .Stockpile := isBlockKind_ne_stockpile hkind
  simp only [get_tile_build, hb]
  rw [if_neg hns, get_build_keys_block pos ctx b hkind]
  have hat : (pos.x == anchor_x b && pos.y == anchor_y b) = true := by
    simp [hax, hay]
  cases hsz : hasSizeKind b.getType <;>
    simp [do_block_building, hat, full_token, hsz]

theorem build_non_anchor (pos : Coord) (ctx : tile_context) (b : Building)
    (hb : ctx.b = some b) (hkind : isBlockKind b.getType = true)
    (hnot : ¬(pos.x = anchor_x b ∧ pos.y = anchor_y b)) :
    get_tile_build pos ctx = some (if_pretty ctx "`") := by
  have hns : b.getType ≠ .Stockpile := isBlockKind_ne_stockpile hkind
  simp only [get_tile_build, hb]
  rw [if_neg hns, get_build_keys_block pos ctx b hkind]
  have hat : (pos.x == anchor_x b && pos.y == anchor_y b) = false := by
    rcases Decidable.not_and_iff_or_not.mp hnot with h | h <;> simp [h]
  simp [do_block_building, hat]

theorem lookup_rowSet (r : bp_row) (x : Int) (s : String) :
    List.lookup x (rowSet r x s) = some s := by
  induction r with
  | nil => simp [rowSet, List.lookup]
  | cons p rest ih =>
    rcases p with ⟨k, v⟩
    unfold rowSet
    by_cases h1 : x < k
    · simp [h1, List.lookup]
    · by_cases h2 : x = k
      · simp [h1, h2, List.lookup]
      · have hk : (x == k) = false := by simp [h2]
        simp [h1, h2, List.lookup, hk, ih]

theorem lookup_areaSet (a : bp_area) (y x : Int) (s : String) :
    (match List.lookup y (areaSet a y x s) with
     | none => none
     | some r => List.lookup x r) = some s := by
  induction a with
  | nil => simp [areaSet, List.lookup, lookup_rowSet]
  | cons p rest ih =>
    rcases p with ⟨k, r⟩
    unfold areaSet
    by_cases h1 : y < k
    · simp [h1, List.lookup, lookup_rowSet]
    · by_cases h2 : y = k
      · subst h2
        simp [h1, List.lookup, lookup_rowSet]
      · have hk : (y == k) = false := by simp [h2]
        simp [h1, h2, List.lookup, hk, ih]

theorem volGet_volSet (v : bp_volume) (z y x : Int) (s : String) :
    volGet (volSet v z y x s) z y x = some s := by
  induction v with
  | nil => simp [volSet, volGet, List.lookup, lookup_areaSet]
  | cons p rest ih =>
    rcases p with ⟨k, a⟩
    unfold volSet
    by_cases h1 : z < k
    · simp [h1, volGet, List.lookup, lookup_areaSet]
    · by_cases h2 : z = k
      · subst h2
        simp [h1, volGet, List.lookup, lookup_areaSet]
      · have hk : (z == k) = false := by simp [h2]
        simp only [volGet] at ih
        simp [h1, h2, volGet, List.lookup, hk, ih]

theorem volSet_keys_sub (z y x : Int) (s : String) :
    ∀ (v : bp_volume) (w : Int), w ∈ (volSet v z y x s).map Prod.fst →
      w = z ∨ w ∈ v.map Prod.fst := by
  intro v
  induction v with
  | nil => intro w hw; simp [volSet] at hw; exact Or.inl hw
  | cons p rest ih =>
    rcases p with ⟨k, a⟩
    intro w hw
    unfold volSet at hw
    by_cases h1 : z < k
    · rw [if_pos h1] at hw
      simp at hw
      rcases hw with h | h | h
      · exact Or.inl h
      · exact Or.inr (by simp [h])
      · exact Or.inr (by simp [h])
    · by_cases h2 : z = k
      · rw [if_neg h1, if_pos h2] at hw
        simp at hw
        rcases hw with h | h
        · exact Or.inl (by rw [h, ← h2])
        · exact Or.inr (by simp [h])
      · rw [if_neg h1, if_neg h2] at hw
        simp at hw
        rcases hw with h | h
        · exact Or.inr (by simp [h])
        · rcases ih w (by simpa using h) with h' | h'
          · exact Or.inl h'
          · exact Or.inr (by simp [h'])

theorem volSet_sorted (z y x : Int) (s : String) :
    ∀ (v : bp_volume), sortedKeys v → sortedKeys (volSet v z y x s) := by
  intro v
  induction v with
  | nil => intro _; simp [volSet, sortedKeys]
  | cons p rest ih =>
    rcases p with ⟨k, a⟩
    intro hsort
    unfold sortedKeys at hsort
    simp only [List.map_cons, List.pairwise_cons] at hsort
    rcases hsort with ⟨hklt, hrest⟩
    unfold volSet
    by_cases h1 : z < k
    · rw [if_pos h1]
      unfold sortedKeys
      simp only [List.map_cons, List.pairwise_cons]
      refine ⟨?_, hklt, hrest⟩
      intro w hw
      simp only [List.map_cons, List.mem_cons] at hw
      rcases hw with h | h
      · omega
      · have := hklt w h
        omega
    · by_cases h2 : z = k
      · rw [if_neg h1, if_pos h2]
        unfold sortedKeys
        simp only [List.map_cons, List.pairwise_cons]
        exact ⟨hklt, hrest⟩
      · rw [if_neg h1, if_neg h2]
        have hsorted' : sortedKeys (volSet rest z y x s) := ih hrest
        unfold sortedKeys at hsorted' ⊢
        simp only [List.map_cons, List.pairwise_cons]
        refine ⟨?_, hsorted'⟩
        intro w hw
        rcases volSet_keys_sub z y x s rest w hw with h | h
        · omega
        · exact hklt w h

theorem foldl_preserve {β γ : Type} {P : γ → Prop} {f : γ → β → γ}
    (hf : ∀ acc b, P acc → P (f acc b)) :
    ∀ (l : List β) (init : γ), P init → P (l.foldl f init) := by
  intro l
  induction l with
  | nil => intro init h; simpa using h
  | cons a t ih => intro init h; exact ih _ (hf _ _ h)

theorem scan_step_sorted (start : Coord) (f : Coord → Option String)
    (v : bp_volume) (pos : Coord) (h : sortedKeys v) :
    sortedKeys (scan_step start f v pos) := by
  unfold scan_step
  cases hf : f pos
  · exact h
  · exact volSet_sorted _ _ _ _ v h

theorem run_scan_sorted (start endc : Coord) (f : Coord → Option String) :
    sortedKeys (run_scan start endc f) := by
  unfold run_scan
  refine foldl_preserve (fun v z hv => ?_) _ _ ?_
  · exact foldl_preserve
      (fun v2 y hv2 => foldl_preserve
        (fun v3 x hv3 => scan_step_sorted start f v3 ⟨x, y, z⟩ hv3) _ _ hv2)
      _ _ hv
  · simp [sortedKeys]

theorem flatMap_sep_eq_dropLast {α : Type} (g : Nat → List α) (sep : α) :
    ∀ d : Nat,
      (List.range d).flatMap (fun z => g z ++ if z < d - 1 then [sep] else []) =
      ((List.range d).flatMap (fun z => g z ++ [sep])).dropLast := by
  intro d
  cases d with
  | zero => simp
  | succ e =>
    rw [List.range_succ, List.flatMap_append, List.flatMap_append]
    have hcong :
        (List.range e).flatMap (fun z => g z ++ if z < e + 1 - 1 then [sep] else [])
          = (List.range e).flatMap (fun z => g z ++ [sep]) := by
      apply List.flatMap_congr
      intro a ha
      have : a < e := List.mem_range.mp ha
      simp [this]
    rw [hcong]
    have hne : [e].flatMap (fun z => g z ++ [sep]) ≠ [] := by simp
    rw [List.dropLast_append_of_ne_nil _ hne]
    simp

theorem flatMap_uniform_length {α : Type} (g : Nat → List α) (k : Nat)
    (hg : ∀ z, (g z).length = k) :
    ∀ d : Nat, ((List.range d).flatMap g).length = d * k := by
  intro d
  induction d with
  | zero => simp
  | succ e ih =>
    rw [List.range_succ, List.flatMap_append]
    simp only [List.length_append, ih]
    simp [hg, Nat.succ_mul]

theorem flatMap_uniform_getElem {α : Type} (g : Nat → List α) (k : Nat)
    (hg : ∀ z, (g z).length = k) :
    ∀ (d z r : Nat), z < d → r < k →
      ((List.range d).flatMap g)[z * k + r]? = (g z)[r]? := by
  intro d
  induction d with
  | zero => intro z r hz _; exact absurd hz (Nat.not_lt_zero z)
  | succ e ih =>
    intro z r hz hr
    rw [List.range_succ, List.flatMap_append]
    have hlen : ((List.range e).flatMap g).length = e * k :=
      flatMap_uniform_length g k hg e
    rw [List.getElem?_append, hlen]
    by_cases hze : z < e
    · have hlt : z * k + r < e * k := by
        have h1 : (z + 1) * k ≤ e * k := Nat.mul_le_mul_right k (by omega)
        have h2 : (z + 1) * k = z * k + k := Nat.succ_mul z k
        omega
      rw [if_pos hlt]
      exact ih z r hze hr
    · have hz' : z = e := by omega
      subst hz'
      have hnlt : ¬ (z * k + r < z * k) := by omega
      rw [if_neg hnlt]
      have hidx : z * k + r - z * k = r := by omega
      simp [hidx]

theorem write_pretty_eq (opts : blueprint_options) (v : bp_volume) :
    write_pretty opts v =
      ((List.range opts.depth.natAbs).flatMap (fun z =>
        ((List.range opts.height.toNat).map (prettyRow opts v z))
          ++ [if 0 < opts.depth then "#<" else "#>"])).dropLast := by
  simp only [write_pretty]
  exact flatMap_sep_eq_dropLast _ _ _

theorem write_pretty_length (opts : blueprint_options) (v : bp_volume) :
    (write_pretty opts v).length
      = opts.depth.natAbs * (opts.height.toNat + 1) - 1 := by
  rw [write_pretty_eq, List.length_dropLast,
      flatMap_uniform_length _ (opts.height.toNat + 1) (fun z => by simp)]

theorem write_pretty_row (opts : blueprint_options) (v : bp_volume)
    (z y : Nat) (hz : z < opts.depth.natAbs) (hy : y < opts.height.toNat) :
    (write_pretty opts v)[z * (opts.height.toNat + 1) + y]?
      = some (prettyRow opts v z y) := by
  have hB : z * (opts.height.toNat + 1) + (opts.height.toNat + 1)
      ≤ opts.depth.natAbs * (opts.height.toNat + 1) := by
    have h1 : (z + 1) * (opts.height.toNat + 1)
        ≤ opts.depth.natAbs * (opts.height.toNat + 1) :=
      Nat.mul_le_mul_right _ (by omega)
    have h2 : (z + 1) * (opts.height.toNat + 1)
        = z * (opts.height.toNat + 1) + (opts.height.toNat + 1) :=
      Nat.succ_mul _ _
    omega
  rw [write_pretty_eq, List.dropLast_eq_take, List.getElem?_take]
  rw [flatMap_uniform_length _ (opts.height.toNat + 1) (fun z => by simp)]
  rw [if_pos (by omega)]
  rw [flatMap_uniform_getElem _ (opts.height.toNat + 1) (fun z => by simp)
        _ z y hz (by omega)]
  rw [List.getElem?_append]
  rw [if_pos (by simpa using hy)]
  rw [List.getElem?_map, List.getElem?_range hy]
  rfl

theorem write_pretty_sep (opts : blueprint_options) (v : bp_volume)
    (z : Nat) (hz : z + 1 < opts.depth.natAbs) :
    (write_pretty opts v)[z * (opts.height.toNat + 1) + opts.height.toNat]?
      = some (if 0 < opts.depth then "#<" else "#>") := by
  have hB : z * (opts.height.toNat + 1) + 2 * (opts.height.toNat + 1)
      ≤ opts.depth.natAbs * (opts.height.toNat + 1) := by
    have h1 : (z + 2) * (opts.height.toNat + 1)
        ≤ opts.depth.natAbs * (opts.height.toNat + 1) :=
      Nat.mul_le_mul_right _ (by omega)
    have h2 : (z + 2) * (opts.height.toNat + 1)
        = z * (opts.height.toNat + 1) + 2 * (opts.height.toNat + 1) := by ring
    omega
  rw [write_pretty_eq, List.dropLast_eq_take, List.getElem?_take]
  rw [flatMap_uniform_length _ (opts.height.toNat + 1) (fun z => by simp)]
  rw [if_pos (by omega)]
  rw [flatMap_uniform_getElem _ (opts.height.toNat + 1) (fun z => by simp)
        _ z opts.height.toNat (by omega) (by omega)]
  rw [List.getElem?_append]
  rw [if_neg (by simp)]
  simp

/-! ## Claim theorems -/

/-- Claim C1: for every multi-tile building whose footprint is w×h tiles,
the construction-phase classifier emits the full descriptor token at exactly
one tile of the footprint — the kind's designated anchor (NW corner for farm
plots, roads, bridges, horizontal axles, rollers; center for workshops,
furnaces, siege engines, trade depots, shops, water wheels, windmills; SE
corner for screw pumps; encoded by `anchor_x`/`anchor_y`) — and the
continuation placeholder at every other footprint tile; for a 1×1 footprint
the hypotheses force the anchor to coincide with the single tile, which
receives the full token. -/
theorem C1_block_building_anchor (ctx : tile_context) (b : Building)
    (pos : Coord) (hb : ctx.b = some b)
    (hkind : isBlockKind b.getType = true)
    (hax : b.x1 ≤ anchor_x b ∧ anchor_x b ≤ b.x2)
    (hay : b.y1 ≤ anchor_y b ∧ anchor_y b ≤ b.y2)
    (hpx : b.x1 ≤ pos.x ∧ pos.x ≤ b.x2)
    (hpy : b.y1 ≤ pos.y ∧ pos.y ≤ b.y2) :
    (pos.x = anchor_x b ∧ pos.y = anchor_y b →
        get_tile_build pos ctx = some (full_token b))
    ∧ (¬(pos.x = anchor_x b ∧ pos.y = anchor_y b) →
        get_tile_build pos ctx = some (if_pretty ctx "`"))
    ∧ full_token b ≠ if_pretty ctx "`" := by
  refine ⟨fun h => build_anchor pos ctx b hb hkind h.1 h.2,
          fun h => build_non_anchor pos ctx b hb hkind h, ?_⟩
  unfold if_pretty
  split
  · exact (full_token_ne b).2
  · exact (full_token_ne b).1

/-- Witness for C1 at a concrete 2×1 farm plot: the NW corner gets the full
token `p(2x1)`, the other footprint tile gets the placeholder. -/
theorem C1_block_building_anchor_witness :
    get_tile_build ⟨0, 0, 0⟩ { pretty := true, b := some farm_2x1 }
        = some (full_token farm_2x1)
    ∧ get_tile_build ⟨1, 0, 0⟩ { pretty := true, b := some farm_2x1 }
        = some (if_pretty { pretty := true, b := some farm_2x1 } "`")
    ∧ full_token farm_2x1 = "p(2x1)" := by
  refine ⟨(C1_block_building_anchor { pretty := true, b := some farm_2x1 }
      farm_2x1 ⟨0, 0, 0⟩ rfl (by decide) (by decide) (by decide) (by decide)
      (by decide)).1 (by decide),
    (C1_block_building_anchor { pretty := true, b := some farm_2x1 }
      farm_2x1 ⟨1, 0, 0⟩ rfl (by decide) (by decide) (by decide) (by decide)
      (by decide)).2.1 (by decide), by decide⟩

/-- Claim C2 counterexample: the claim has the two layouts swapped.  At a
non-anchor footprint tile the classifier returns the backtick marker when the
dense/pretty layout is selected and the empty string when the minimal layout
is selected, and the dense serializer renders that backtick (not a blank) in
the cell. -/
theorem C2_counterexample :
    get_tile_build ⟨1, 0, 0⟩ { pretty := true, b := some farm_2x1 } = some "`"
    ∧ get_tile_build ⟨1, 0, 0⟩ { pretty := false, b := some farm_2x1 } = some ""
    ∧ write_pretty opts_2x1_pretty
        (run_scan ⟨0, 0, 0⟩ ⟨2, 1, 1⟩ (build_tile_farm true))
        = ["p(2x1),`,#"]
    ∧ ["p(2x1),`,#"] ≠ ["p(2x1), ,#"]
    ∧ write_minimal opts_2x1_minimal
        (run_scan ⟨0, 0, 0⟩ ⟨2, 1, 1⟩ (build_tile_farm false))
        = "p(2x1),\n" := by
  refine ⟨by decide, by decide, by decide, by decide, by decide⟩

/-- Claim C2 (amended): the continuation placeholder of a non-anchor
footprint tile is the backtick marker character when the dense/pretty layout
is selected and the empty string when the minimal layout is selected; the
dense serializer renders the backtick in the cell and the minimal serializer
renders nothing for it (only its position separator). -/
theorem C2_amended (ctx : tile_context) (b : Building) (pos : Coord)
    (hb : ctx.b = some b) (hkind : isBlockKind b.getType = true)
    (hnot : ¬(pos.x = anchor_x b ∧ pos.y = anchor_y b)) :
    get_tile_build pos ctx = some (if ctx.pretty then "`" else "")
    ∧ write_pretty opts_2x1_pretty
        (run_scan ⟨0, 0, 0⟩ ⟨2, 1, 1⟩ (build_tile_farm true))
        = ["p(2x1),`,#"]
    ∧ write_minimal opts_2x1_minimal
        (run_scan ⟨0, 0, 0⟩ ⟨2, 1, 1⟩ (build_tile_farm false))
        = "p(2x1),\n" := by
  refine ⟨?_, by decide, by decide⟩
  have h := build_non_anchor pos ctx b hb hkind hnot
  simpa [if_pretty] using h

/-- Witness for the amended C2 at the concrete farm plot. -/
theorem C2_amended_witness :
    get_tile_build ⟨1, 0, 0⟩ { pretty := false, b := some farm_2x1 } = some ""
    ∧ get_tile_build ⟨1, 0, 0⟩ { pretty := true, b := some farm_2x1 }
        = some "`" := by
  refine ⟨(C2_amended { pretty := false, b := some farm_2x1 } farm_2x1
      ⟨1, 0, 0⟩ rfl (by decide) (by decide)).1,
    (C2_amended { pretty := true, b := some farm_2x1 } farm_2x1
      ⟨1, 0, 0⟩ rfl (by decide) (by decide)).1⟩

/-- Claim C3 counterexample: the friction encoding is cumulative but runs
the other way.  Friction 500 is below 10000, yet its token carries strictly
more friction markers (`CSaa` vs `CSa`), so "higher friction receives at
least as many (more) markers than lower friction" is false. -/
theorem C3_counterexample :
    (500 : Int) < 10000
    ∧ a_count (friction_markers 10000) < a_count (friction_markers 500)
    ∧ get_trap_str track_stop_500 = "CSaa"
    ∧ get_trap_str track_stop_10000 = "CSa" := by
  refine ⟨by decide, by decide, by decide, by decide⟩

/-- Claim C3 (amended): the friction suffix is built cumulatively, one
marker per threshold crossed, but counting downward: friction 10 → 4
markers, 50 → 3, 500 → 2, 10000 → 1, any other value → 0.  Among the
threshold-ladder values, a track stop with lower friction therefore receives
at least as many (in fact strictly more) markers than one with higher
friction — the reverse direction of the original claim — and the track-stop
token is the base plus exactly this suffix. -/
theorem C3_amended :
    (∀ f : Int, f ∉ friction_ladder → friction_markers f = "")
    ∧ a_count (friction_markers 10) = 4
    ∧ a_count (friction_markers 50) = 3
    ∧ a_count (friction_markers 500) = 2
    ∧ a_count (friction_markers 10000) = 1
    ∧ (∀ f1 f2 : Int, f1 ∈ friction_ladder → f2 ∈ friction_ladder →
        f1 ≤ f2 →
        a_count (friction_markers f2) ≤ a_count (friction_markers f1))
    ∧ (∀ fr : Int, get_trap_str (track_stop_plain fr)
        = "CS" ++ friction_markers fr) := by
  refine ⟨?_, by decide, by decide, by decide, by decide, ?_, ?_⟩
  · intro f hf
    simp only [friction_ladder, List.mem_cons, List.not_mem_nil, or_false,
               not_or] at hf
    obtain ⟨h10, h50, h500, h10000⟩ := hf
    simp [friction_markers, h10, h50, h500, h10000]
  · intro f1 f2 h1 h2 h12
    simp only [friction_ladder, List.mem_cons, List.not_mem_nil,
               or_false] at h1 h2
    rcases h1 with rfl | rfl | rfl | rfl <;>
      rcases h2 with rfl | rfl | rfl | rfl <;>
      first
        | decide
        | (exfalso; omega)
  · intro fr
    simp only [get_trap_str, track_stop_plain, Bool.false_eq_true, if_false]
    rfl

/-- Witness for the amended C3: a value outside the ladder gets no marker,
and between the ladder values 50 ≤ 500 the marker count is anti-monotone. -/
theorem C3_amended_witness :
    friction_markers 77 = ""
    ∧ a_count (friction_markers 500) ≤ a_count (friction_markers 50) := by
  refine ⟨C3_amended.1 77 (by decide), ?_⟩
  exact C3_amended.2.2.2.2.2.1 50 500 (by decide) (by decide) (by decide)

/-- Claim C4: a track stop with a dump mechanism, dump x-shift 0, dump
y-shift positive, and friction 500 classifies to exactly `CSddaa` — `CS`
base, `dd` for the dump configuration, and two cumulative friction markers
for friction 500. -/
theorem C4_track_stop_dump (pos : Coord) (ctx : tile_context) (b : Building)
    (dy : Int) (hb : ctx.b = some b) (ht : b.getType = .Trap)
    (hsub : b.sub = .trapst .TrackStop true 0 dy 500) (hdy : 0 < dy) :
    get_tile_build pos ctx = some "CSddaa" := by
  simp only [get_tile_build, hb]
  rw [if_neg (by simp [ht])]
  simp [get_build_keys, ht, get_trap_str, hsub, friction_markers, hdy]

/-- Witness for C4 at dump y-shift 1. -/
theorem C4_track_stop_dump_witness :
    (0 : Int) < 1
    ∧ get_tile_build ⟨0, 0, 0⟩ { pretty := false, b := some track_stop_dump_500 }
        = some "CSddaa" :=
  ⟨by decide,
   C4_track_stop_dump ⟨0, 0, 0⟩ { pretty := false, b := some track_stop_dump_500 }
     track_stop_dump_500 1 rfl rfl rfl (by decide)⟩

/-- Claim C5: the excavation-phase classifier is a total pure function of
the tile's terrain shape alone — it ignores the tile context (no structure
lookup), factors through the fixed shape → token table `dig_token`, maps
open/ramp-top to the "open" token, the flat floor shapes to the "dig floor"
token, fortification, the three stair variants and ramp to their own
distinct tokens, and wall or any unrecognized shape to no token. -/
theorem C5_dig_classifier :
    (∀ (shapeAt : Coord → tiletype_shape) (pos : Coord)
        (c1 c2 : tile_context),
        get_tile_dig shapeAt pos c1 = get_tile_dig shapeAt pos c2)
    ∧ (∀ (shapeAt : Coord → tiletype_shape) (pos : Coord)
        (ctx : tile_context),
        get_tile_dig shapeAt pos ctx = dig_token (shapeAt pos))
    ∧ (∀ s, dig_token s = some "h" ↔ (s = .EMPTY ∨ s = .RAMP_TOP))
    ∧ (∀ s, dig_token s = some "d" ↔
        (s = .FLOOR ∨ s = .BOULDER ∨ s = .PEBBLES ∨ s = .BROOK_TOP))
    ∧ dig_token .FORTIFICATION = some "F"
    ∧ dig_token .STAIR_UP = some "u"
    ∧ dig_token .STAIR_DOWN = some "j"
    ∧ dig_token .STAIR_UPDOWN = some "i"
    ∧ dig_token .RAMP = some "r"
    ∧ dig_token .WALL = none
    ∧ (∀ s, dig_token s = none ↔
        (s = .NONE ∨ s = .WALL ∨ s = .BROOK_BED ∨ s = .TREE ∨ s = .SAPLING
          ∨ s = .SHRUB ∨ s = .ENDLESS_PIT ∨ s = .BRANCH ∨ s = .TRUNK_BRANCH
          ∨ s = .TWIG))
    ∧ (["h", "d", "F", "u", "j", "i", "r"] : List String).Nodup := by
  refine ⟨?_, ?_, ?_, ?_, by decide, by decide, by decide, by decide,
          by decide, by decide, ?_, by decide⟩
  · intro shapeAt pos c1 c2; rfl
  · intro shapeAt pos ctx
    cases h : shapeAt pos <;> simp [get_tile_dig, dig_token, h]
  · intro s; cases s <;> decide
  · intro s; cases s <;> decide
  · intro s; cases s <;> decide

/-- Claim C6: for every accumulated sparse volume and run parameters (depth
non-zero), the dense serializer emits exactly `abs(depth)` layers of exactly
`height` row lines, each row holding exactly `width` comma-terminated cells
(a blank for every position with no recorded token) followed by the `#`
terminator, with the layer-separator line (`#<` for positive depth, `#>` for
negative) exactly between consecutive layers and never after the last. -/
theorem C6_dense_grid_shape (opts : blueprint_options) (v : bp_volume)
    (hd : opts.depth ≠ 0) :
    (write_pretty opts v).length
        = opts.depth.natAbs * (opts.height.toNat + 1) - 1
    ∧ (∀ z y : Nat, z < opts.depth.natAbs → y < opts.height.toNat →
        (write_pretty opts v)[z * (opts.height.toNat + 1) + y]?
          = some (prettyRow opts v z y))
    ∧ (∀ z : Nat, z + 1 < opts.depth.natAbs →
        (write_pretty opts v)[z * (opts.height.toNat + 1) + opts.height.toNat]?
          = some (if 0 < opts.depth then "#<" else "#>"))
    ∧ (∀ z y : Nat, prettyRow opts v z y =
        String.join ((List.range opts.width.toNat).map (fun (x : Nat) =>
          prettyCell v (z : Int) (y : Int) (x : Int) ++ ",")) ++ "#")
    ∧ (∀ z y : Nat, ((List.range opts.width.toNat).map (fun (x : Nat) =>
        prettyCell v (z : Int) (y : Int) (x : Int) ++ ",")).length
          = opts.width.toNat)
    ∧ (∀ z y x : Int, volGet v z y x = none → prettyCell v z y x = " ") := by
  refine ⟨write_pretty_length opts v,
          fun z y hz hy => write_pretty_row opts v z y hz hy,
          fun z hz => write_pretty_sep opts v z hz,
          fun z y => rfl,
          fun z y => by rw [List.length_map, List.length_range],
          fun z y x h => by simp [prettyCell, h]⟩

/-- Witness for C6 on a concrete 2-layer 1×1 run with an empty volume. -/
theorem C6_dense_grid_shape_witness :
    opts_c8.depth ≠ 0
    ∧ (write_pretty opts_c8 []).length
        = opts_c8.depth.natAbs * (opts_c8.height.toNat + 1) - 1 :=
  ⟨by decide, (C6_dense_grid_shape opts_c8 [] (by decide)).1⟩

/-- Claim C7: a tile's layer key is the normalized offset
`abs(z - start_z)`, the layer keys of every accumulated volume are strictly
ascending (so serialization visits layers near-to-far from the start layer
regardless of scan direction), and in the concrete upward scan from z = 10
with depth −5 (end.z = 5) the token recorded at world z = 9 (offset 1)
serializes before the token recorded at world z = 7 (offset 3). -/
theorem C7_layer_order :
    (∀ (start endc : Coord) (f : Coord → Option String),
        sortedKeys (run_scan start endc f))
    ∧ (∀ (start : Coord) (f : Coord → Option String) (v : bp_volume)
        (p : Coord) (s : String), f p = some s →
        scan_step start f v p
          = volSet v ((p.z - start.z).natAbs : Int) (p.y - start.y)
              (p.x - start.x) s)
    ∧ run_scan ⟨0, 0, 10⟩ ⟨1, 1, 5⟩ world_c7
        = [(1, [(0, [(0, "A")])]), (3, [(0, [(0, "B")])])]
    ∧ write_minimal opts_c7 (run_scan ⟨0, 0, 10⟩ ⟨1, 1, 5⟩ world_c7)
        = "#>\nA\n#>\n#>\nB\n"
    ∧ (write_minimal opts_c7
          (run_scan ⟨0, 0, 10⟩ ⟨1, 1, 5⟩ world_c7)).toList.indexOf 'A'
        < (write_minimal opts_c7
          (run_scan ⟨0, 0, 10⟩ ⟨1, 1, 5⟩ world_c7)).toList.indexOf 'B' := by
  refine ⟨run_scan_sorted, ?_, by decide, by decide, by decide⟩
  intro start f v p s hf
  simp [scan_step, hf]

/-- Witness for C7: the recording step at world z = 9 of a scan starting at
z = 10 inserts at layer offset 1. -/
theorem C7_layer_order_witness :
    scan_step ⟨0, 0, 10⟩ world_c7 [] ⟨0, 0, 9⟩ = volSet [] 1 0 0 "A" := by
  have h := C7_layer_order.2.1 ⟨0, 0, 10⟩ world_c7 [] ⟨0, 0, 9⟩ "A" rfl
  simpa using h

/-- Claim C8 (code bug): when a later phase's `write_blueprint` fails (here:
the build phase's filename cannot be resolved after the dig phase already
opened its file), `do_transform` returns `false` from inside the write loop
without ever reaching the close loop, so the stream opened for the dig phase
is still open (and its `ofstream` leaked) when the run returns. -/
theorem C8_open_file_leak :
    do_transform_files opts_c8 getFilename_c8 true
      = { ok := false, dirAttempted := true,
          opened := ["blueprints/c8-dig.csv"],
          openAtReturn := ["blueprints/c8-dig.csv"] }
    ∧ (do_transform_files opts_c8 getFilename_c8 true).openAtReturn ≠ [] := by
  refine ⟨by decide, by decide⟩

/-- Claim C9: with all four phase flags false and auto-detection off, the
run fails before any file I/O — the output directory is not created, no file
is opened, and nothing is left open. -/
theorem C9_zero_phases (opts : blueprint_options)
    (getFilename : String → Option String) (mkdirOk : Bool)
    (h1 : opts.auto_phase = false) (h2 : opts.dig = false)
    (h3 : opts.build = false) (h4 : opts.place = false)
    (h5 : opts.query = false) :
    do_transform_files opts getFilename mkdirOk
      = { ok := false, dirAttempted := false, opened := [],
          openAtReturn := [] } := by
  simp [do_transform_files, phase_list, h1, h2, h3, h4, h5]

/-- Witness for C9 on concrete all-false options. -/
theorem C9_zero_phases_witness :
    do_transform_files opts_no_phases (fun _ => none) true
      = { ok := false, dirAttempted := false, opened := [],
          openAtReturn := [] } :=
  C9_zero_phases opts_no_phases (fun _ => none) true rfl rfl rfl rfl rfl

/-- Claim C10: with the minimal layout selected, a non-anchor footprint tile
of a multi-tile building — and a non-anchor stockpile tile in the
designation phase — yields the empty-string token `some ""` (not `none`), 
which the scan records in the sparse volume, creating layer/row/column keys
and consuming a comma-separated position in the minimal output; a tile whose
classifier returns `none` leaves the volume completely unchanged. -/
theorem C10_empty_token_recorded (ctx : tile_context) (b : Building)
    (pos : Coord) (hb : ctx.b = some b) (hpretty : ctx.pretty = false)
    (hkind : isBlockKind b.getType = true)
    (hnot : ¬(pos.x = anchor_x b ∧ pos.y = anchor_y b)) :
    get_tile_build pos ctx = some ""
    ∧ (∀ (sctx : tile_context) (sb : Building) (spos : Coord),
        sctx.b = some sb → sctx.pretty = false →
        sb.getType = .Stockpile →
        (sb.x1 ≠ spos.x ∨ sb.y1 ≠ spos.y) →
        get_tile_place spos sctx = some "")
    ∧ (∀ (start : Coord) (f : Coord → Option String) (v : bp_volume)
        (p : Coord), f p = none → scan_step start f v p = v)
    ∧ (∀ (v : bp_volume) (z y x : Int) (s : String),
        volGet (volSet v z y x s) z y x = some s)
    ∧ write_minimal opts_2x1_minimal [(0, [(0, [(2, "")])])] = ",,\n"
    ∧ write_minimal opts_2x1_minimal [] = "" := by
  refine ⟨?_, ?_, ?_, volGet_volSet, by decide, by decide⟩
  · have h := build_non_anchor pos ctx b hb hkind hnot
    simpa [if_pretty, hpretty] using h
  · intro sctx sb spos hsb hsp hst hcond
    simp only [get_tile_place, hsb]
    rw [if_neg (by simp [hst])]
    rw [if_pos hcond]
    simp [if_pretty, hsp]
  · intro start f v p hf
    simp [scan_step, hf]

/-- Witness for C10 at the concrete farm plot's non-anchor tile in the
minimal layout. -/
theorem C10_empty_token_recorded_witness :
    get_tile_build ⟨1, 0, 0⟩ { pretty := false, b := some farm_2x1 }
      = some "" :=
  (C10_empty_token_recorded { pretty := false, b := some farm_2x1 } farm_2x1
    ⟨1, 0, 0⟩ rfl rfl (by decide) (by decide)).1
